import Mathlib

/-!
Shallow embedding of `src/main.py` (Programmer Search), the parts with
algorithmic content: `load_settings`, `Window.search`, `Window.is_prioritized`
and `Window.display_results`, together with the Python string and
`urllib.parse` primitives they rely on.

Strings are handled through their underlying `List Char`.  Python's
`str.lstrip(chars)` strips a *character set*, not a prefix; `str.replace`
replaces every non-overlapping occurrence left to right; `str.endswith` is a
suffix test; `dict.get(k, d)` is association lookup with a default.  The
network-location extraction of `urllib.parse.urlparse` is embedded as
`netlocOf`: after the WHATWG cleanup (strip C0-control/space at both ends,
delete tab/CR/LF everywhere) a leading `scheme:` is removed when the text
before the first colon is a well-formed scheme, and the netloc is the text
after a leading `//` up to the first `/`, `?` or `#`; absent that, it is empty.
-/

namespace ProgSearch

/-- Python `str.lower()` restricted to ASCII (all inputs of interest are
ASCII). -/
def lowerStr (s : String) : String := ⟨s.data.map Char.toLower⟩

/-- Python `str.lstrip(chars)`: remove the maximal leading run of characters
belonging to the set `chars`. -/
def pyLstrip (chars : List Char) (s : String) : String :=
  ⟨s.data.dropWhile (fun c => chars.contains c)⟩

/-- The character set of the Python literal `'www.'` as passed to `lstrip`. -/
def wwwChars : List Char := ['w', 'w', 'w', '.']

/-- Python whitespace for the default `str.strip()` (ASCII portion). -/
def isPySpace (c : Char) : Bool :=
  c = ' ' || c = '\t' || c = '\n' || c = '\x0d' || c = '\x0b' || c = '\x0c'

/-- Python `str.strip()` with no argument: drop whitespace at both ends. -/
def pyStrip (s : String) : String :=
  ⟨((s.data.dropWhile isPySpace).reverse.dropWhile isPySpace).reverse⟩

/-- Python `s.endswith(t)`. -/
def pyEndswith (s t : String) : Bool := t.data.isSuffixOf s.data

/-- One fuel-indexed pass of Python `str.replace(old, "")`: delete every
non-overlapping occurrence of `old`, scanning left to right.  The fuel is
instantiated with the length of the list, which is enough for one full scan. -/
def pyRemoveF (old : List Char) : Nat → List Char → List Char
  | _, [] => []
  | 0, l => l
  | fuel + 1, c :: cs =>
    if old ≠ [] ∧ old.isPrefixOf (c :: cs) then
      pyRemoveF old fuel ((c :: cs).drop old.length)
    else
      c :: pyRemoveF old fuel cs

/-- Python `s.replace(old, "")`.  (`"".replace("", "")` is `""`, matching the
`old = []` behaviour here; the program only ever passes non-empty `old`.) -/
def pyRemove (old : String) (s : String) : String :=
  ⟨pyRemoveF old.data s.data.length s.data⟩

/-- Python `s.split('/')[0]`: the prefix before the first `'/'`. -/
def beforeSlash (s : String) : String := ⟨s.data.takeWhile (fun c => c ≠ '/')⟩

/-! ## `urllib.parse.urlparse(url).netloc` -/

/-- Characters allowed after the first letter of a URL scheme
(`urllib.parse.scheme_chars`). -/
def isSchemeChar (c : Char) : Bool :=
  c.isAlpha || c.isDigit || c = '+' || c = '-' || c = '.'

/-- C0 control characters and space, stripped from the front by `urlsplit`
(only the front: trailing ones are deliberately preserved by CPython). -/
def isC0OrSpace (c : Char) : Bool := c.val ≤ 32

/-- The cleanup `urlsplit` applies before parsing: `lstrip` C0 control/space,
then delete every tab, CR and LF. -/
def cleanUrl (l : List Char) : List Char :=
  (l.dropWhile isC0OrSpace).filter (fun c => c ≠ '\t' && c ≠ '\x0d' && c ≠ '\n')

/-- Drop a leading `scheme:` when the text before the first colon is a valid
scheme (first char an ASCII letter, the rest scheme characters); otherwise
leave the input unchanged.  Mirrors the scheme scan of `urlsplit`. -/
def afterScheme (l : List Char) : List Char :=
  match l.findIdx? (fun c => c = ':') with
  | some i =>
    if 0 < i ∧ (l.head?.elim false Char.isAlpha) = true
        ∧ (l.take i).all isSchemeChar = true then
      l.drop (i + 1)
    else l
  | none => l

/-- Embeds `urllib.parse.urlparse(url).netloc`: present only after a leading `//`,
and extends to the first `/`, `?` or `#`.  (CPython additionally raises
`ValueError` on mismatched IPv6 brackets or invalid netloc characters; those
exceptional paths are outside the program's handled behaviour and are not
modelled — here the netloc is returned as parsed.) -/
def netlocOf (url : String) : String :=
  match afterScheme (cleanUrl url.data) with
  | '/' :: '/' :: rest => ⟨rest.takeWhile (fun c => c ≠ '/' && c ≠ '?' && c ≠ '#')⟩
  | _ => ""

/-! ## The repository's functions -/

/-- Embeds `parsed.netloc.lower().lstrip('www.')` — the domain string `is_prioritized`
computes for the result URL (line 264) and, first, for each site pattern
(line 268). -/
def extractDomain (s : String) : String := pyLstrip wwwChars (lowerStr (netlocOf s))

/-- The fallback of lines 270–271: when a pattern has no parseable netloc,
`site.replace('http://', '').replace('https://', '').split('/')[0].lower().lstrip('www.')`. -/
def siteFallback (site : String) : String :=
  pyLstrip wwwChars (lowerStr (beforeSlash (pyRemove "https://" (pyRemove "http://" site))))

/-- The domain `is_prioritized` compares against for one site pattern:
the `urlparse`-based extraction, or the fallback when it is empty
(lines 267–271). -/
def siteDomain (site : String) : String :=
  let d := extractDomain site
  if d = "" then siteFallback site else d

/-- Embeds `Window.is_prioritized` (lines 255–276): true iff the result URL's domain
ends with some pattern's domain.  The Python loop returns on the first match;
`List.any` has the same value. -/
def is_prioritized (sites : List String) (url : String) : Bool :=
  let result_domain := extractDomain url
  sites.any (fun site => pyEndswith result_domain (siteDomain site))

/-- One raw record from the search provider, a dict which may lack any of the
keys `href`, `title`, `body` (accessed via `dict.get` with defaults). -/
structure RawResult where
  href : Option String
  title : Option String
  body : Option String
deriving DecidableEq, Repr

/-- One rendered result label.  `isPriority` records which of the two
style sheets lines 324–345 install; everything else about the label is a
pure function of these fields. -/
structure Entry where
  href : String
  title : String
  body : String
  isPriority : Bool
deriving DecidableEq, Repr

/-- The label `display_results` builds for one record (lines 299–345):
`href = result.get('href', '')`, `title = result.get('title', 'No title')`,
`body = result.get('body', 'No description available')`, and the priority flag
from `is_prioritized`. -/
def renderEntry (sites : List String) (r : RawResult) : Entry :=
  { href := r.href.getD ""
    title := r.title.getD "No title"
    body := r.body.getD "No description available"
    isPriority := is_prioritized sites (r.href.getD "") }

/-- Embeds `Window.display_results` (lines 288–347): the `for result in results`
loop appends one label per record to the layout, in input order. -/
def display_results (sites : List String) : List RawResult → List Entry
  | [] => []
  | r :: rs => renderEntry sites r :: display_results sites rs

/-- Embeds `Window.search` (lines 231–253).  State is the list of displayed labels;
the provider call `ddgs.text(query, max_results=MAX_RESULTS)` is a parameter
returning either records or a raised exception (its message as a string).
Returns the new displayed labels and the lines logged.  An empty stripped
query returns before touching the layout; otherwise the old labels are
cleared and `display_results` rebuilds them, an exception being caught,
logged with `traceback.print_exc()`, and treated as `results = []`. -/
def search (displayed : List Entry) (sites : List String) (queryRaw : String)
    (provider : String → Except String (List RawResult)) :
    List Entry × List String :=
  let query := pyStrip queryRaw
  if query = "" then
    (displayed, [])
  else
    match provider query with
    | Except.ok results => (display_results sites results, [])
    | Except.error e =>
      (display_results sites [],
        ["Error searching: " ++ e, "Traceback (most recent call last):"])

/-- Embeds `load_settings` (lines 29–42).  The input is the parsed `settings.jsonc`
object when the file exists (field name/value pairs; keys unique as in a JSON
object), or `none` on `FileNotFoundError`.  Returns the effective
`max_results` and the lines printed. -/
def load_settings (file : Option (List (String × Int))) : Int × List String :=
  match file with
  | none => (5, ["Warning: settings.jsonc is empty."])
  | some settings => ((settings.lookup "max_results").getD 5, [])

/-- Written from the spec's words, for comparison with `extractDomain`: the
network-location lowercased with at most a single leading literal occurrence
of the prefix `"www."` removed and no other characters removed. -/
def specClaimDomain (s : String) : String :=
  let d := lowerStr (netlocOf s)
  if ("www.").data.isPrefixOf d.data then ⟨d.data.drop 4⟩ else d

/-- A provider record carrying only a URL, used for concrete evaluations. -/
def dupResult : RawResult :=
  { href := some "https://a.com", title := none, body := none }

end ProgSearch

namespace ProgSearch

/-! ## Helper lemmas -/

theorem data_empty_str : ("" : String).data = [] := rfl

theorem pyEndswith_empty_pattern (s : String) : pyEndswith s "" = true := by
  simp [pyEndswith, data_empty_str]

theorem pyEndswith_empty_string (d : String) : pyEndswith "" d = true ↔ d = "" := by
  simp [pyEndswith, data_empty_str, String.ext_iff]

theorem any_true_of_empty_site (url : String) {sites : List String} {s : String}
    (hs : s ∈ sites) (hd : siteDomain s = "") : is_prioritized sites url = true := by
  simp only [is_prioritized, List.any_eq_true]
  exact ⟨s, hs, by rw [hd]; exact pyEndswith_empty_pattern _⟩

theorem head_of_dropWhile_false {α : Type} {p : α → Bool} :
    ∀ {l : List α} {c : α}, (l.dropWhile p).head? = some c → p c = false := by
  intro l
  induction l with
  | nil => intro c h; simp [List.dropWhile] at h
  | cons a as ih =>
    intro c h
    rw [List.dropWhile_cons] at h
    by_cases hpa : p a = true
    · rw [if_pos hpa] at h; exact ih h
    · rw [if_neg hpa] at h
      simp only [List.head?_cons, Option.some.injEq] at h
      subst h
      exact Bool.not_eq_true _ ▸ hpa

/-! ## The claims -/

/-- C10: if some configured pattern's extracted domain is the empty string
(for instance the pattern `""`, `"/"` or `"https://"`), then `is_prioritized`
returns true for every URL, since every string ends with the empty string. -/
theorem is_prioritized_of_empty_pattern (url : String) (sites : List String)
    (h : ∃ s ∈ sites, siteDomain s = "") : is_prioritized sites url = true := by
  obtain ⟨s, hs, hd⟩ := h
  exact any_true_of_empty_site url hs hd

/-- Witness for C10: the pattern `"https://"` extracts to the empty domain and
prioritizes an ordinary URL, and the pattern `""` prioritizes even the
malformed empty URL. -/
theorem is_prioritized_of_empty_pattern_witness :
    is_prioritized ["https://"] "https://example.org/page" = true ∧
    is_prioritized [""] "" = true :=
  ⟨is_prioritized_of_empty_pattern "https://example.org/page" ["https://"] (by decide),
   is_prioritized_of_empty_pattern "" [""] (by decide)⟩

/-- C5: when the URL's extracted domain is empty (a malformed URL with no
network location), `is_prioritized` is false whenever every pattern's
extracted domain is non-empty, and true when some pattern's extracted domain
is empty. -/
theorem is_prioritized_empty_domain (url : String) (sites : List String)
    (h : extractDomain url = "") :
    ((∀ s ∈ sites, siteDomain s ≠ "") → is_prioritized sites url = false) ∧
    ((∃ s ∈ sites, siteDomain s = "") → is_prioritized sites url = true) := by
  constructor
  · intro hall
    simp only [is_prioritized, List.any_eq_false]
    intro s hs
    rw [h]
    simp only [pyEndswith_empty_string]
    exact hall s hs
  · rintro ⟨s, hs, hd⟩
    exact any_true_of_empty_site url hs hd

/-- Witness for C5: the malformed URL `"notaurl"` has an empty domain; it is
not prioritized against the pattern `"stackoverflow.com"` and is prioritized
against the pattern `"/"`, whose extracted domain is empty. -/
theorem is_prioritized_empty_domain_witness :
    is_prioritized ["stackoverflow.com"] "notaurl" = false ∧
    is_prioritized ["/"] "notaurl" = true :=
  ⟨(is_prioritized_empty_domain "notaurl" ["stackoverflow.com"] (by decide)).1 (by decide),
   (is_prioritized_empty_domain "notaurl" ["/"] (by decide)).2 (by decide)⟩

/-- C1: evaluation at the failing input.  The claim (and the spec's stated
intent) is that `"https://notstackoverflow.com"` is not prioritized by the
pattern `"stackoverflow.com"`; the implemented suffix match returns true,
since `"notstackoverflow.com"` ends with `"stackoverflow.com"` — the matching
defect the spec flags in its §9. -/
theorem is_prioritized_notstackoverflow :
    is_prioritized ["stackoverflow.com"] "https://notstackoverflow.com" = true := by
  decide

/-- C4: `"https://www.stackoverflow.com/x"` is prioritized by the pattern
`"stackoverflow.com"`: the netloc lowercases to `"www.stackoverflow.com"`,
the leading `www.` characters are stripped, and the suffix match succeeds. -/
theorem is_prioritized_www_stackoverflow :
    is_prioritized ["stackoverflow.com"] "https://www.stackoverflow.com/x" = true := by
  decide

/-- Counterexample to C2 as stated: for `"https://weather.com"` the compared
domain is `"eather.com"` — the leading `'w'` of `"weather.com"` is removed even
though no `"www."` prefix is present, so the extraction is not a single-prefix
removal. -/
theorem extractDomain_ne_single_prefix_removal :
    extractDomain "https://weather.com" = "eather.com" ∧
    specClaimDomain "https://weather.com" = "weather.com" ∧
    extractDomain "https://weather.com" ≠ specClaimDomain "https://weather.com" := by
  decide

/-- C2 amended: the domain `is_prioritized` compares (for the URL on line 264
and for each pattern's first-stage extraction on line 268) is the lowercased
network location with its maximal leading run of characters drawn from the
character set of `'www.'` (that is, `'w'` and `'.'`) removed — Python
`lstrip` strips a character set, not a single prefix occurrence. -/
theorem extractDomain_strips_char_set (s : String) :
    ∃ p : List Char,
      (lowerStr (netlocOf s)).data = p ++ (extractDomain s).data ∧
      (∀ c ∈ p, wwwChars.contains c = true) ∧
      (∀ c, (extractDomain s).data.head? = some c → wwwChars.contains c = false) := by
  refine ⟨(lowerStr (netlocOf s)).data.takeWhile (fun c => wwwChars.contains c), ?_, ?_, ?_⟩
  · show _ = _ ++ ((lowerStr (netlocOf s)).data.dropWhile (fun c => wwwChars.contains c))
    exact (List.takeWhile_append_dropWhile _ _).symm
  · intro c hc
    exact List.mem_takeWhile_imp hc
  · intro c hc
    exact head_of_dropWhile_false hc

/-- Counterexample to C3 as stated: a result sequence repeating the same URL
is displayed with that URL appearing twice — `display_results` keeps both
occurrences, not only the first. -/
theorem display_results_duplicate_url :
    (display_results [] [dupResult, dupResult]).map Entry.href =
      ["https://a.com", "https://a.com"] ∧
    ¬ ((display_results [] [dupResult, dupResult]).map Entry.href).Nodup := by
  decide

/-- C3 amended: `display_results` performs no deduplication — it renders one
entry per input record in input order, so a URL occurring in several input
records is displayed once per occurrence. -/
theorem display_results_no_dedup (sites : List String) (rs : List RawResult) :
    (display_results sites rs).map Entry.href = rs.map (fun r => r.href.getD "") := by
  induction rs with
  | nil => rfl
  | cons r rs ih => simp [display_results, renderEntry, ih]

/-- C6: the displayed entries are exactly the input records in the adapter's
order, each rendered with its own title, URL and snippet; the rendered content
and its position are the same whatever the priority patterns are, so the
priority flag influences only styling. -/
theorem display_results_preserves_order (sites : List String) (rs : List RawResult) :
    (display_results sites rs).map (fun e => (e.href, e.title, e.body)) =
      rs.map (fun r =>
        (r.href.getD "", r.title.getD "No title", r.body.getD "No description available")) := by
  induction rs with
  | nil => rfl
  | cons r rs ih => simp [display_results, renderEntry, ih]

/-- C7: when the provider raises, `search` still returns (the exception is
caught, not propagated): the displayed state equals the state of a run whose
provider returned zero results (namely the empty display), and the log holds
the error message followed by the stack trace. -/
theorem search_provider_error (displayed : List Entry) (sites : List String)
    (q e : String) (p : String → Except String (List RawResult))
    (hq : pyStrip q ≠ "") (hp : p (pyStrip q) = Except.error e) :
    (search displayed sites q p).1 = (search displayed sites q (fun _ => Except.ok [])).1 ∧
    (search displayed sites q p).1 = [] ∧
    ("Error searching: " ++ e) ∈ (search displayed sites q p).2 ∧
    "Traceback (most recent call last):" ∈ (search displayed sites q p).2 := by
  simp [search, hq, hp, display_results]

/-- Witness for C7 at the query `"q"` and a provider that always raises. -/
theorem search_provider_error_witness :
    (search [] [] "q" (fun _ => Except.error "boom")).1 = [] ∧
    ("Error searching: " ++ "boom") ∈ (search [] [] "q" (fun _ => Except.error "boom")).2 ∧
    "Traceback (most recent call last):" ∈ (search [] [] "q" (fun _ => Except.error "boom")).2 := by
  have h := search_provider_error [] [] "q" "boom" (fun _ => Except.error "boom")
    (by decide) rfl
  exact ⟨h.2.1, h.2.2.1, h.2.2.2⟩

/-- C8: a query that strips to the empty string is a complete no-op — the
displayed results are unchanged, nothing is logged, and the provider is never
consulted (the outcome is the same for every provider). -/
theorem search_empty_query (displayed : List Entry) (sites : List String)
    (q : String) (p : String → Except String (List RawResult))
    (hq : pyStrip q = "") :
    search displayed sites q p = (displayed, []) ∧
    ∀ p', search displayed sites q p = search displayed sites q p' := by
  constructor
  · simp [search, hq]
  · intro p'
    simp [search, hq]

/-- Witness for C8 at the whitespace query `"   "`. -/
theorem search_empty_query_witness :
    search [⟨"https://a.com", "t", "b", false⟩] ["x.com"] "   "
        (fun _ => Except.ok []) =
      ([⟨"https://a.com", "t", "b", false⟩], []) := by
  have h := search_empty_query [⟨"https://a.com", "t", "b", false⟩] ["x.com"] "   "
    (fun _ => Except.ok []) (by decide)
  exact h.1

/-- C9: `load_settings` yields 5 with a warning when the settings file is
absent, 5 when the parsed content has no `max_results` field, and otherwise
the file's `max_results` value. -/
theorem load_settings_spec :
    load_settings none = (5, ["Warning: settings.jsonc is empty."]) ∧
    (∀ s, s.lookup "max_results" = none → load_settings (some s) = (5, [])) ∧
    (∀ s v, s.lookup "max_results" = some v → load_settings (some s) = (v, [])) := by
  refine ⟨rfl, ?_, ?_⟩
  · intro s h
    simp [load_settings, h]
  · intro s v h
    simp [load_settings, h]

/-- Witness for C9 at a settings object without `max_results` and at one that
sets it to 9. -/
theorem load_settings_spec_witness :
    load_settings (some [("theme", 1)]) = (5, []) ∧
    load_settings (some [("max_results", 9)]) = (9, []) :=
  ⟨load_settings_spec.2.1 [("theme", 1)] rfl,
   load_settings_spec.2.2 [("max_results", 9)] 9 rfl⟩

end ProgSearch
